import Mathlib

/-! Verification development for two files of the agent.

* `pkg/clusteragent/clusterchecks/helpers.go`: the entity-identifier helpers
  `isServiceCheck`, `getServiceUID`, `getEndpointsEntity`.
* `pkg/collector/corechecks/systemd/systemd.go`: the systemd check, its
  `Run` and `Configure` methods.

Go strings are embedded as Lean `String`s, read as sequences of code points.
Calls to collaborators that live outside the two files (the aggregator, the
D-Bus connection, the logger, the YAML decoder, the regexp compiler) are
parameters of the embedding, and every such call is recorded in a trace.
-/

namespace Clusterchecks

/-! ## helpers.go -/

/-- Go `strings.HasPrefix(s, p)`: does `s` begin with `p`. -/
def stringsHasPrefix (s p : String) : Bool :=
  p.toList.isPrefixOf s.toList

/-- Go `strings.TrimLeft(s, cutset)`: `s` with all leading code points that
are contained in `cutset` removed. -/
def stringsTrimLeft (s cutset : String) : String :=
  String.mk (s.toList.dropWhile (fun ch => cutset.toList.contains ch))

/-- The part of `integration.Config` that helpers.go reads. -/
structure Config where
  Entity : String
  deriving DecidableEq, Repr

def kubeServiceIDPrefix : String := "kube_service://"

def KubePodPrefix : String := "kubernetes_pod://"

/-- Source: `isServiceCheck`, helpers.go lines 39-42. -/
def isServiceCheck (config : Config) : Bool :=
  stringsHasPrefix config.Entity kubeServiceIDPrefix

/-- Source: `getServiceUID`, helpers.go lines 44-47. -/
def getServiceUID (config : Config) : String :=
  stringsTrimLeft config.Entity kubeServiceIDPrefix

/-- Source: `getEndpointsEntity`, helpers.go lines 49-51
(`fmt.Sprintf("%s%s", KubePodPrefix, podUID)`). -/
def getEndpointsEntity (podUID : String) : String :=
  KubePodPrefix ++ podUID

/-- A service UID, in the usual UUID form, that begins with a character of
the marker "kube_service://". -/
def sampleServiceUID : String := "e4b7c1d2-0a3f-4c55-9d1e-5f2a7b8c9d10"

end Clusterchecks

namespace Systemd

/-! ## systemd.go: data model -/

def systemdCheckName : String := "systemd"

/-- A non-nil Go error value, identified by the text its Error method returns. -/
structure Error where
  msg : String
  deriving DecidableEq, Repr

/-- Go type integration.Data, a byte slice. -/
abbrev Data := List UInt8

/-- Go type check.ID, a string type. -/
abbrev CheckID := String

/-- A connection handle, Go type *dbus.Conn. -/
structure Conn where
  handle : Nat
  deriving DecidableEq, Repr

/-- A sender handle, Go type aggregator.Sender. -/
structure Sender where
  handle : Nat
  deriving DecidableEq, Repr

/-- The fields of dbus.UnitStatus that the check reads. -/
structure UnitStatus where
  Name : String
  ActiveState : String
  SubState : String
  deriving DecidableEq, Repr

/-- A compiled pattern, Go type *regexp.Regexp, identified by its source text. -/
structure Regexp where
  expr : String
  deriving DecidableEq, Repr

/-- Source: systemdInstanceConfig, systemd.go lines 37-41. A nil slice and an
empty slice are both the empty list. -/
structure systemdInstanceConfig where
  UnitNames : List String
  UnitRegexStrings : List String
  UnitRegexPatterns : List Regexp
  deriving DecidableEq, Repr

/-- Source: systemdInitConfig, systemd.go line 43. -/
structure systemdInitConfig where
  deriving DecidableEq, Repr

/-- Source: systemdConfig, systemd.go lines 45-48. The Go field is called
instance, which Lean reserves; it is written with guillemets here. -/
structure systemdConfig where
  «instance» : systemdInstanceConfig
  initConf : systemdInitConfig
  deriving DecidableEq, Repr

/-- Source: SystemdCheck, systemd.go lines 32-35. The embedded core.CheckBase
is declared outside the two files, so its type is the parameter Base. -/
structure SystemdCheck (Base : Type) where
  CheckBase : Base
  config : systemdConfig

/-- An argument handed to a logging or printing call. -/
inductive LogArg where
  | str (s : String)
  | err (e : Error)
  | strs (xs : List String)
  | patterns (ps : List Regexp)
  deriving DecidableEq, Repr

/-- One call that leaves the check: to the aggregator, to the sender, to the
D-Bus seams dbusNew / connListUnits / connClose, or to the logger. -/
inductive Event where
  | GetSender (id : CheckID)
  | dbusNew
  | connListUnits (conn : Conn)
  | connClose (conn : Conn)
  | Gauge (sender : Sender) (metric : String) (value : Nat) (hostname : String)
      (tags : List String)
  | Commit (sender : Sender)
  | logError (args : List LogArg)
  | logErrorf (format : String) (args : List LogArg)
  | logWarnf (format : String) (args : List LogArg)
  | logDebugf (format : String) (args : List LogArg)
  | fmtPrintln (args : List LogArg)
  deriving DecidableEq, Repr

/-! ## Number conversion -/

/-- Number of binary digits of n, for n below 2 ^ fuel. -/
def bitLength : Nat → Nat → Nat
  | 0, _ => 0
  | fuel + 1, n => if n = 0 then 0 else bitLength fuel (n / 2) + 1

/-- Go conversion float64(n) of a non-negative int n (so n < 2 ^ 63): the
number denoted by the nearest float64, which has a 53-bit significand and
rounds ties to even. Every float64 this check submits denotes a natural
number, so float64 values are represented by the number they denote. -/
def float64 (n : Nat) : Nat :=
  let bits := bitLength 64 n
  if bits ≤ 53 then n
  else
    let shift := bits - 53
    let q := n / 2 ^ shift
    let r := n % 2 ^ shift
    let half := 2 ^ (shift - 1)
    let q1 := if half < r ∨ (r = half ∧ q % 2 = 1) then q + 1 else q
    q1 * 2 ^ shift

/-! ## systemd.go: Run -/

/-- The collaborators of Run. ID is the method c.ID() of the embedded
CheckBase, GetSender is aggregator.GetSender, and dbusNew / connListUnits are
the package-level function variables of systemd.go lines 25-29 (connClose
returns nothing, so it has no entry: its calls appear in the trace). Each is
called at most once per Run, so its answer is a fixed value. -/
structure RunEnv (Base : Type) where
  ID : Base → CheckID
  GetSender : CheckID → Except Error Sender
  dbusNew : Except Error Conn
  connListUnits : Conn → Except Error (List UnitStatus)

/-- What one invocation of Run did: the calls it made, in order, and the
error it returned (none is Go nil). -/
structure RunResult where
  trace : List Event
  err : Option Error
  deriving DecidableEq, Repr

/-- The call log.Debugf of systemd.go line 74 for one unit. -/
def unitDebugf (unit : UnitStatus) : Event :=
  Event.logDebugf "[unit] %s: ActiveState=%s, SubState=%s"
    [LogArg.str unit.Name, LogArg.str unit.ActiveState, LogArg.str unit.SubState]

/-- The range loop of systemd.go lines 73-78, started with counter n and
trace t: one Debugf per unit, and the counter incremented for each unit whose
ActiveState is "active". The counter is a Go int; it never exceeds the length
of the slice, which is itself an int, so it cannot wrap. -/
def rangeUnits : List UnitStatus → Nat → List Event → Nat × List Event
  | [], activeUnitCounter, t => (activeUnitCounter, t)
  | unit :: rest, activeUnitCounter, t =>
    rangeUnits rest
      (if unit.ActiveState = "active" then activeUnitCounter + 1 else activeUnitCounter)
      (t ++ [unitDebugf unit])

/-- Source: the part of Run after `defer connClose(conn)`, systemd.go lines
65-85, continuing the trace t. -/
def runWithConn (env : RunEnv Base) (sender : Sender) (conn : Conn) (t : List Event) :
    RunResult :=
  match env.connListUnits conn with
  | Except.error err =>
    { trace := t ++ [Event.connListUnits conn,
        Event.fmtPrintln [LogArg.str "ListUnits Err: ", LogArg.err err]],
      err := some err }
  | Except.ok units =>
    let r := rangeUnits units 0 (t ++ [Event.connListUnits conn])
    { trace := r.2 ++
        [Event.Gauge sender "systemd.unit.active.count" (float64 r.1) "" [],
         Event.Gauge sender "systemd.unit.cpu" 1 "" [],
         Event.Commit sender],
      err := none }

/-- Source: SystemdCheck.Run, systemd.go lines 51-86. The deferred
connClose(conn) runs when the function returns, after everything else, on
every path that passed line 63. -/
def SystemdCheck.Run (env : RunEnv Base) (c : SystemdCheck Base) : RunResult :=
  let id := env.ID c.CheckBase
  match env.GetSender id with
  | Except.error err => { trace := [Event.GetSender id], err := some err }
  | Except.ok sender =>
    match env.dbusNew with
    | Except.error err =>
      { trace := [Event.GetSender id, Event.dbusNew,
          Event.logError [LogArg.str "New Connection Err: ", LogArg.err err]],
        err := some err }
    | Except.ok conn =>
      let body := runWithConn env sender conn [Event.GetSender id, Event.dbusNew]
      { trace := body.trace ++ [Event.connClose conn], err := body.err }

/-! ### Observations on a trace -/

/-- The connections on which connClose was called, in order. -/
def closeCalls : List Event → List Conn
  | [] => []
  | Event.connClose conn :: t => conn :: closeCalls t
  | _ :: t => closeCalls t

/-- The connections on which connListUnits was called, in order. -/
def listUnitsCalls : List Event → List Conn
  | [] => []
  | Event.connListUnits conn :: t => conn :: listUnitsCalls t
  | _ :: t => listUnitsCalls t

/-- Number of calls of dbusNew. -/
def dbusNewCalls : List Event → Nat
  | [] => 0
  | Event.dbusNew :: t => dbusNewCalls t + 1
  | _ :: t => dbusNewCalls t

/-- The calls made on a sender (Gauge and Commit), in order. -/
def senderCalls : List Event → List Event
  | [] => []
  | Event.Gauge s m v h tags :: t => Event.Gauge s m v h tags :: senderCalls t
  | Event.Commit s :: t => Event.Commit s :: senderCalls t
  | _ :: t => senderCalls t

/-- The name and value of every Gauge call, in order. -/
def gauges : List Event → List (String × Nat)
  | [] => []
  | Event.Gauge _ m v _ _ :: t => (m, v) :: gauges t
  | _ :: t => gauges t

/-- The values submitted for the gauge called metric, in order. -/
def gaugeValues (metric : String) (t : List Event) : List Nat :=
  ((gauges t).filter (fun g => g.1 = metric)).map (fun g => g.2)

/-- Number of units whose ActiveState is exactly "active". -/
def activeCount (units : List UnitStatus) : Nat :=
  units.countP (fun u => u.ActiveState = "active")

/-! ## systemd.go: Configure -/

/-- The collaborators of Configure. CommonConfigure is the method of the
embedded CheckBase (it may change the base and may fail); the two decoders
are yaml.Unmarshal at the two types it is used at, each given the raw
document and the current content of the struct it decodes into, and
answering with the content it leaves there and its error; regexpCompile is
regexp.Compile. -/
structure ConfigureEnv (Base : Type) where
  CommonConfigure : Base → Data → Base × Option Error
  yamlUnmarshalInit : Data → systemdInitConfig → systemdInitConfig × Option Error
  yamlUnmarshalInstance :
    Data → systemdInstanceConfig → systemdInstanceConfig × Option Error
  regexpCompile : String → Except Error Regexp

/-- What one invocation of Configure did: the receiver as it is left, the
logging calls made, in order, and the error returned (none is Go nil). -/
structure ConfigureResult (Base : Type) where
  check : SystemdCheck Base
  logs : List Event
  err : Option Error

/-- The range loop of systemd.go lines 106-113 over the remaining strings,
with ps the current content of UnitRegexPatterns and t the logging so far. -/
def compilePatterns (regexpCompile : String → Except Error Regexp) :
    List String → List Regexp → List Event → List Regexp × List Event
  | [], ps, t => (ps, t)
  | regexString :: rest, ps, t =>
    match regexpCompile regexString with
    | Except.error err =>
      compilePatterns regexpCompile rest ps
        (t ++ [Event.logErrorf "Failed to parse systemd check option unit_regex: %s"
          [LogArg.err err]])
    | Except.ok pattern => compilePatterns regexpCompile rest (ps ++ [pattern]) t

/-- Source: SystemdCheck.Configure, systemd.go lines 89-116. -/
def SystemdCheck.Configure (env : ConfigureEnv Base) (c : SystemdCheck Base)
    (rawInstance rawInitConfig : Data) : ConfigureResult Base :=
  let r0 := env.CommonConfigure c.CheckBase rawInstance
  match r0.2 with
  | some err => { check := { CheckBase := r0.1, config := c.config }, logs := [], err := some err }
  | none =>
    let r1 := env.yamlUnmarshalInit rawInitConfig c.config.initConf
    match r1.2 with
    | some err =>
      { check := { CheckBase := r0.1,
                   config := { «instance» := c.config.«instance», initConf := r1.1 } },
        logs := [], err := some err }
    | none =>
      let r2 := env.yamlUnmarshalInstance rawInstance c.config.«instance»
      match r2.2 with
      | some err =>
        { check := { CheckBase := r0.1, config := { «instance» := r2.1, initConf := r1.1 } },
          logs := [], err := some err }
      | none =>
        let r3 := compilePatterns env.regexpCompile r2.1.UnitRegexStrings
          r2.1.UnitRegexPatterns
          [Event.logWarnf "[DEV] c.config.instance.UnitNames: %v" [LogArg.strs r2.1.UnitNames],
           Event.logWarnf "[DEV] c.config.instance.UnitRegexStrings: %v"
             [LogArg.strs r2.1.UnitRegexStrings]]
        { check :=
            { CheckBase := r0.1,
              config :=
                { «instance» :=
                    { UnitNames := r2.1.UnitNames,
                      UnitRegexStrings := r2.1.UnitRegexStrings,
                      UnitRegexPatterns := r3.1 },
                  initConf := r1.1 } },
          logs := r3.2 ++
            [Event.logWarnf "[DEV] c.config.instance.UnitRegexPatterns: %v"
              [LogArg.patterns r3.1]],
          err := none }

/-- Source: systemdFactory, systemd.go lines 118-122; NewCheckBase is
core.NewCheckBase. The config field is left at its zero value. -/
def systemdFactory (NewCheckBase : String → Base) : SystemdCheck Base :=
  { CheckBase := NewCheckBase systemdCheckName,
    config :=
      { «instance» := { UnitNames := [], UnitRegexStrings := [], UnitRegexPatterns := [] },
        initConf := {} } }

/-- The patterns of the strings that compile, in the order of the strings. -/
def compiledOf (regexpCompile : String → Except Error Regexp) (strs : List String) :
    List Regexp :=
  strs.filterMap (fun s =>
    match regexpCompile s with
    | Except.ok pattern => some pattern
    | Except.error _ => none)

/-! ## Sample collaborators -/

/-- A check base for the samples: the check name, which is also its ID. -/
abbrev SampleBase := String

def sampleUnits : List UnitStatus :=
  [{ Name := "A", ActiveState := "active", SubState := "running" },
   { Name := "B", ActiveState := "inactive", SubState := "dead" },
   { Name := "C", ActiveState := "active", SubState := "exited" }]

/-- Everything succeeds and three units are listed. -/
def sampleRunEnv : RunEnv SampleBase :=
  { ID := fun b => b,
    GetSender := fun _ => Except.ok { handle := 1 },
    dbusNew := Except.ok { handle := 7 },
    connListUnits := fun _ => Except.ok sampleUnits }

/-- Everything succeeds and no unit is listed. -/
def sampleRunEnvNoUnits : RunEnv SampleBase :=
  { sampleRunEnv with connListUnits := fun _ => Except.ok [] }

/-- The connection opens and listing fails. -/
def sampleRunEnvListFails : RunEnv SampleBase :=
  { sampleRunEnv with
    connListUnits := fun _ => Except.error { msg := "dbus: connection closed by user" } }

/-- Opening the connection fails. -/
def sampleRunEnvOpenFails : RunEnv SampleBase :=
  { sampleRunEnv with
    dbusNew := Except.error { msg := "dial unix /var/run/dbus/system_bus_socket: no such file" } }

/-- The aggregator has no sender for the check. -/
def sampleRunEnvNoSender : RunEnv SampleBase :=
  { sampleRunEnv with GetSender := fun _ => Except.error { msg := "sender unavailable" } }

def sampleNewCheckBase : String → SampleBase := fun name => name

def sampleCheck : SystemdCheck SampleBase := systemdFactory sampleNewCheckBase

/-- A check configured with a filter on names and patterns. -/
def sampleCheckFiltered : SystemdCheck SampleBase :=
  { CheckBase := "systemd",
    config :=
      { «instance» :=
          { UnitNames := ["B"], UnitRegexStrings := ["^A$"],
            UnitRegexPatterns := [{ expr := "^A$" }] },
        initConf := {} } }

/-- The bytes of an ASCII text. -/
def bytes (s : String) : Data :=
  s.toList.map (fun ch => UInt8.ofNat ch.toNat)

def sampleDocBadAndGood : Data := bytes "unit_regex: [\"[\", \"ok.*\"]"

def sampleDocA : Data := bytes "unit_regex: [\"a.*\"]"

def sampleDocB : Data := bytes "unit_regex: [\"b.*\"]"

/-- An instance document that also sets the key of the field
UnitRegexPatterns. That field is exported and has no yaml tag (systemd.go
line 40), so the decoder reads it under its lower-cased name, and an empty
mapping decodes to a pointer to a zero Regexp. -/
def sampleDocUntaggedKey : Data :=
  bytes "unit_regex: [\"ok.*\"]\nunitregexpatterns: [\x7b\x7d]"

/-- The instance documents the sample decoder knows, each with the value of
its keys unit_names, unit_regex and unitregexpatterns (none: the key is
absent). The zero Regexp has the empty source text. -/
def sampleDocuments :
    List (Data × (Option (List String) × Option (List String) × Option (List Regexp))) :=
  [(sampleDocBadAndGood, (none, some ["[", "ok.*"], none)),
   (sampleDocA, (none, some ["a.*"], none)),
   (sampleDocB, (none, some ["b.*"], none)),
   (sampleDocUntaggedKey, (none, some ["ok.*"], some [{ expr := "" }]))]

/-- A decoder for the sample documents. As yaml.Unmarshal does, it sets the
fields whose key the document has and leaves the other fields of the struct
as they are. -/
def sampleYamlUnmarshalInstance (raw : Data) (old : systemdInstanceConfig) :
    systemdInstanceConfig × Option Error :=
  match sampleDocuments.lookup raw with
  | some doc =>
    ({ UnitNames := doc.1.getD old.UnitNames,
       UnitRegexStrings := doc.2.1.getD old.UnitRegexStrings,
       UnitRegexPatterns := doc.2.2.getD old.UnitRegexPatterns }, none)
  | none => (old, some { msg := "yaml: unmarshal errors" })

/-- A compiler for the samples: it rejects a text whose square brackets do
not pair up, as regexp.Compile does for "[". -/
def sampleRegexpCompile (s : String) : Except Error Regexp :=
  if s.toList.count '[' = s.toList.count ']' then Except.ok { expr := s }
  else Except.error { msg := "error parsing regexp: missing closing ]" }

def sampleConfigureEnv : ConfigureEnv SampleBase :=
  { CommonConfigure := fun b _ => (b, none),
    yamlUnmarshalInit := fun _ old => (old, none),
    yamlUnmarshalInstance := sampleYamlUnmarshalInstance,
    regexpCompile := sampleRegexpCompile }

/-- The sample check after a first Configure with unit_regex: ["a.*"]. -/
def sampleCheckConfigured : SystemdCheck SampleBase :=
  (SystemdCheck.Configure sampleConfigureEnv sampleCheck sampleDocA []).check

end Systemd

namespace Systemd

/-! ## Lemmas: number conversion and the loop of Run -/

theorem bitLength_le (fuel : Nat) : ∀ (k n : Nat), n < 2 ^ k → bitLength fuel n ≤ k := by
  induction fuel with
  | zero => intro k n _; simp [bitLength]
  | succ fuel ih =>
    intro k n hn
    unfold bitLength
    split
    · exact Nat.zero_le _
    · rename_i hne
      cases k with
      | zero => simp at hn; exact absurd hn hne
      | succ k =>
        have hhalf : n / 2 < 2 ^ k := by
          rw [Nat.div_lt_iff_lt_mul (by decide)]
          rw [pow_succ] at hn
          exact hn
        exact Nat.succ_le_succ (ih k (n / 2) hhalf)

theorem float64_exact (n : Nat) (hn : n < 2 ^ 53) : float64 n = n := by
  have hb : bitLength 64 n ≤ 53 := bitLength_le 64 53 n hn
  simp [float64, hb]

theorem rangeUnits_counter (units : List UnitStatus) :
    ∀ (n : Nat) (t : List Event), (rangeUnits units n t).1 = n + activeCount units := by
  induction units with
  | nil => intro n t; simp [rangeUnits, activeCount]
  | cons u rest ih =>
    intro n t
    rw [rangeUnits, ih]
    by_cases h : u.ActiveState = "active"
    · simp [activeCount, List.countP_cons, h]; omega
    · simp [activeCount, List.countP_cons, h]

theorem rangeUnits_trace (units : List UnitStatus) :
    ∀ (n : Nat) (t : List Event), (rangeUnits units n t).2 = t ++ units.map unitDebugf := by
  induction units with
  | nil => intro n t; simp [rangeUnits]
  | cons u rest ih => intro n t; rw [rangeUnits, ih]; simp

theorem activeCount_le_length (units : List UnitStatus) : activeCount units ≤ units.length :=
  List.countP_le_length _

/-! ## Lemmas: observations on traces -/

theorem closeCalls_append (a b : List Event) :
    closeCalls (a ++ b) = closeCalls a ++ closeCalls b := by
  induction a with
  | nil => rfl
  | cons e a ih => cases e <;> simp [closeCalls, ih]

theorem listUnitsCalls_append (a b : List Event) :
    listUnitsCalls (a ++ b) = listUnitsCalls a ++ listUnitsCalls b := by
  induction a with
  | nil => rfl
  | cons e a ih => cases e <;> simp [listUnitsCalls, ih]

theorem senderCalls_append (a b : List Event) :
    senderCalls (a ++ b) = senderCalls a ++ senderCalls b := by
  induction a with
  | nil => rfl
  | cons e a ih => cases e <;> simp [senderCalls, ih]

theorem gauges_append (a b : List Event) : gauges (a ++ b) = gauges a ++ gauges b := by
  induction a with
  | nil => rfl
  | cons e a ih => cases e <;> simp [gauges, ih]

theorem closeCalls_debug (units : List UnitStatus) : closeCalls (units.map unitDebugf) = [] := by
  induction units with
  | nil => rfl
  | cons u rest ih => simpa [unitDebugf, closeCalls] using ih

theorem senderCalls_debug (units : List UnitStatus) :
    senderCalls (units.map unitDebugf) = [] := by
  induction units with
  | nil => rfl
  | cons u rest ih => simpa [unitDebugf, senderCalls] using ih

theorem gauges_debug (units : List UnitStatus) : gauges (units.map unitDebugf) = [] := by
  induction units with
  | nil => rfl
  | cons u rest ih => simpa [unitDebugf, gauges] using ih

/-- The whole behaviour of Run when the three fallible steps succeed. -/
theorem run_of_success (env : RunEnv Base) (c : SystemdCheck Base) (sender : Sender)
    (conn : Conn) (units : List UnitStatus)
    (hs : env.GetSender (env.ID c.CheckBase) = Except.ok sender)
    (hc : env.dbusNew = Except.ok conn)
    (hl : env.connListUnits conn = Except.ok units) :
    SystemdCheck.Run env c =
      { trace := [Event.GetSender (env.ID c.CheckBase), Event.dbusNew,
            Event.connListUnits conn] ++ units.map unitDebugf ++
          [Event.Gauge sender "systemd.unit.active.count" (float64 (activeCount units)) "" [],
           Event.Gauge sender "systemd.unit.cpu" 1 "" [],
           Event.Commit sender, Event.connClose conn],
        err := none } := by
  simp [SystemdCheck.Run, runWithConn, hs, hc, hl, rangeUnits_counter, rangeUnits_trace]

/-- The whole behaviour of Run when the connection opens and listing fails. -/
theorem run_of_list_failure (env : RunEnv Base) (c : SystemdCheck Base) (sender : Sender)
    (conn : Conn) (err : Error)
    (hs : env.GetSender (env.ID c.CheckBase) = Except.ok sender)
    (hc : env.dbusNew = Except.ok conn)
    (hl : env.connListUnits conn = Except.error err) :
    SystemdCheck.Run env c =
      { trace := [Event.GetSender (env.ID c.CheckBase), Event.dbusNew,
          Event.connListUnits conn,
          Event.fmtPrintln [LogArg.str "ListUnits Err: ", LogArg.err err],
          Event.connClose conn],
        err := some err } := by
  simp [SystemdCheck.Run, runWithConn, hs, hc, hl]

/-- The whole behaviour of Run when opening the connection fails. -/
theorem run_of_open_failure (env : RunEnv Base) (c : SystemdCheck Base) (sender : Sender)
    (err : Error)
    (hs : env.GetSender (env.ID c.CheckBase) = Except.ok sender)
    (hc : env.dbusNew = Except.error err) :
    SystemdCheck.Run env c =
      { trace := [Event.GetSender (env.ID c.CheckBase), Event.dbusNew,
          Event.logError [LogArg.str "New Connection Err: ", LogArg.err err]],
        err := some err } := by
  simp [SystemdCheck.Run, hs, hc]

/-- The whole behaviour of Run when no sender can be acquired. -/
theorem run_of_sender_failure (env : RunEnv Base) (c : SystemdCheck Base) (err : Error)
    (hs : env.GetSender (env.ID c.CheckBase) = Except.error err) :
    SystemdCheck.Run env c =
      { trace := [Event.GetSender (env.ID c.CheckBase)], err := some err } := by
  simp [SystemdCheck.Run, hs]

end Systemd

namespace Systemd

/-! ## Run: the claims -/

/-- C1: when sender acquisition, dbusNew and connListUnits all succeed, Run
returns nil and the only value submitted for the gauge
"systemd.unit.active.count" is the number of listed units whose ActiveState
is exactly "active". The list may be empty. The bound on its length is the
range on which float64 represents every count exactly; a Go slice of unit
statuses is far shorter. -/
theorem run_active_count (env : RunEnv Base) (c : SystemdCheck Base) (sender : Sender)
    (conn : Conn) (units : List UnitStatus)
    (hs : env.GetSender (env.ID c.CheckBase) = Except.ok sender)
    (hc : env.dbusNew = Except.ok conn)
    (hl : env.connListUnits conn = Except.ok units)
    (hlen : units.length < 2 ^ 53) :
    (SystemdCheck.Run env c).err = none ∧
    gaugeValues "systemd.unit.active.count" (SystemdCheck.Run env c).trace =
      [activeCount units] := by
  have hcount : float64 (activeCount units) = activeCount units :=
    float64_exact _ (lt_of_le_of_lt (activeCount_le_length units) hlen)
  rw [run_of_success env c sender conn units hs hc hl]
  refine ⟨rfl, ?_⟩
  simp [gaugeValues, gauges_append, gauges_debug, gauges, hcount]

/-- Witness for C1: units A active, B inactive, C active give the value 2. -/
theorem run_active_count_witness :
    sampleRunEnv.connListUnits { handle := 7 } = Except.ok sampleUnits ∧
    (SystemdCheck.Run sampleRunEnv sampleCheck).err = none ∧
    gaugeValues "systemd.unit.active.count" (SystemdCheck.Run sampleRunEnv sampleCheck).trace =
      [2] :=
  ⟨rfl, run_active_count sampleRunEnv sampleCheck { handle := 1 } { handle := 7 } sampleUnits
    rfl rfl rfl (by decide)⟩

/-- C2: whenever dbusNew succeeded, connClose is called exactly once, on the
connection dbusNew returned; if connListUnits fails Run returns that error,
and if connListUnits succeeds Run returns nil. -/
theorem run_closes_exactly_once (env : RunEnv Base) (c : SystemdCheck Base) (sender : Sender)
    (conn : Conn)
    (hs : env.GetSender (env.ID c.CheckBase) = Except.ok sender)
    (hc : env.dbusNew = Except.ok conn) :
    closeCalls (SystemdCheck.Run env c).trace = [conn] ∧
    (∀ err, env.connListUnits conn = Except.error err →
      (SystemdCheck.Run env c).err = some err) ∧
    (∀ units, env.connListUnits conn = Except.ok units →
      (SystemdCheck.Run env c).err = none) := by
  refine ⟨?_, ?_, ?_⟩
  · cases hl : env.connListUnits conn with
    | error err =>
      rw [run_of_list_failure env c sender conn err hs hc hl]
      simp [closeCalls]
    | ok units =>
      rw [run_of_success env c sender conn units hs hc hl]
      simp [closeCalls_append, closeCalls_debug, closeCalls]
  · intro err hl
    rw [run_of_list_failure env c sender conn err hs hc hl]
  · intro units hl
    rw [run_of_success env c sender conn units hs hc hl]

/-- Witness for C2: listing fails after a successful open; one close call, on
the opened connection, and the listing error is returned. -/
theorem run_closes_exactly_once_witness :
    sampleRunEnvListFails.dbusNew = Except.ok { handle := 7 } ∧
    closeCalls (SystemdCheck.Run sampleRunEnvListFails sampleCheck).trace = [{ handle := 7 }] ∧
    (SystemdCheck.Run sampleRunEnvListFails sampleCheck).err =
      some { msg := "dbus: connection closed by user" } :=
  have h := run_closes_exactly_once sampleRunEnvListFails sampleCheck { handle := 1 }
    { handle := 7 } rfl rfl
  ⟨rfl, h.1, h.2.1 _ rfl⟩

/-- C3: if dbusNew fails after the sender was acquired, Run returns the error
of dbusNew, and calls neither connClose nor connListUnits. -/
theorem run_open_failure_no_close (env : RunEnv Base) (c : SystemdCheck Base)
    (sender : Sender) (err : Error)
    (hs : env.GetSender (env.ID c.CheckBase) = Except.ok sender)
    (hc : env.dbusNew = Except.error err) :
    (SystemdCheck.Run env c).err = some err ∧
    closeCalls (SystemdCheck.Run env c).trace = [] ∧
    listUnitsCalls (SystemdCheck.Run env c).trace = [] := by
  rw [run_of_open_failure env c sender err hs hc]
  simp [closeCalls, listUnitsCalls]

/-- Witness for C3: a transport error on open. -/
theorem run_open_failure_no_close_witness :
    sampleRunEnvOpenFails.dbusNew =
      Except.error { msg := "dial unix /var/run/dbus/system_bus_socket: no such file" } ∧
    (SystemdCheck.Run sampleRunEnvOpenFails sampleCheck).err =
      some { msg := "dial unix /var/run/dbus/system_bus_socket: no such file" } ∧
    closeCalls (SystemdCheck.Run sampleRunEnvOpenFails sampleCheck).trace = [] ∧
    listUnitsCalls (SystemdCheck.Run sampleRunEnvOpenFails sampleCheck).trace = [] :=
  ⟨rfl, run_open_failure_no_close sampleRunEnvOpenFails sampleCheck { handle := 1 } _ rfl rfl⟩

/-- C4: if aggregator.GetSender fails for the ID of the check, Run returns
that error and calls none of dbusNew, connListUnits and connClose. -/
theorem run_sender_failure_no_calls (env : RunEnv Base) (c : SystemdCheck Base) (err : Error)
    (hs : env.GetSender (env.ID c.CheckBase) = Except.error err) :
    (SystemdCheck.Run env c).err = some err ∧
    dbusNewCalls (SystemdCheck.Run env c).trace = 0 ∧
    listUnitsCalls (SystemdCheck.Run env c).trace = [] ∧
    closeCalls (SystemdCheck.Run env c).trace = [] := by
  rw [run_of_sender_failure env c err hs]
  simp [dbusNewCalls, closeCalls, listUnitsCalls]

/-- Witness for C4: the aggregator refuses the sender. -/
theorem run_sender_failure_no_calls_witness :
    sampleRunEnvNoSender.GetSender (sampleRunEnvNoSender.ID sampleCheck.CheckBase) =
      Except.error { msg := "sender unavailable" } ∧
    (SystemdCheck.Run sampleRunEnvNoSender sampleCheck).err =
      some { msg := "sender unavailable" } ∧
    dbusNewCalls (SystemdCheck.Run sampleRunEnvNoSender sampleCheck).trace = 0 ∧
    listUnitsCalls (SystemdCheck.Run sampleRunEnvNoSender sampleCheck).trace = [] ∧
    closeCalls (SystemdCheck.Run sampleRunEnvNoSender sampleCheck).trace = [] :=
  ⟨rfl, run_sender_failure_no_calls sampleRunEnvNoSender sampleCheck _ rfl⟩

/-- C7: the configured filter does not influence what is submitted. Take any
two checks (any unit names, regex strings and compiled patterns, any base)
and two successful runs whose listed units agree in their ActiveState, unit
by unit (in particular: the same list of units). Then both runs submit the
same sequence of gauge names and values, namely the count of units whose
ActiveState is "active" and the constant 1. -/
theorem run_ignores_filter {Base1 Base2 : Type} (env1 : RunEnv Base1) (env2 : RunEnv Base2)
    (c1 : SystemdCheck Base1) (c2 : SystemdCheck Base2) (sender1 sender2 : Sender)
    (conn1 conn2 : Conn) (units1 units2 : List UnitStatus)
    (hs1 : env1.GetSender (env1.ID c1.CheckBase) = Except.ok sender1)
    (hc1 : env1.dbusNew = Except.ok conn1)
    (hl1 : env1.connListUnits conn1 = Except.ok units1)
    (hs2 : env2.GetSender (env2.ID c2.CheckBase) = Except.ok sender2)
    (hc2 : env2.dbusNew = Except.ok conn2)
    (hl2 : env2.connListUnits conn2 = Except.ok units2)
    (hstate : units1.map (fun u => u.ActiveState) = units2.map (fun u => u.ActiveState)) :
    gauges (SystemdCheck.Run env1 c1).trace = gauges (SystemdCheck.Run env2 c2).trace ∧
    gauges (SystemdCheck.Run env1 c1).trace =
      [("systemd.unit.active.count", float64 (activeCount units1)),
       ("systemd.unit.cpu", 1)] := by
  have hcount : activeCount units1 = activeCount units2 := by
    have h1 : ∀ us : List UnitStatus,
        activeCount us = (us.map (fun u => u.ActiveState)).countP (fun s => s = "active") := by
      intro us
      simp [activeCount, List.countP_map, Function.comp_def]
    rw [h1, h1, hstate]
  rw [run_of_success env1 c1 sender1 conn1 units1 hs1 hc1 hl1,
    run_of_success env2 c2 sender2 conn2 units2 hs2 hc2 hl2]
  simp [gauges_append, gauges_debug, gauges, hcount]

/-- Witness for C7: an unconfigured check and a check whose filter names B and
matches A, on the same three units. -/
theorem run_ignores_filter_witness :
    sampleCheck.config ≠ sampleCheckFiltered.config ∧
    gauges (SystemdCheck.Run sampleRunEnv sampleCheck).trace =
      gauges (SystemdCheck.Run sampleRunEnv sampleCheckFiltered).trace ∧
    gauges (SystemdCheck.Run sampleRunEnv sampleCheck).trace =
      [("systemd.unit.active.count", 2), ("systemd.unit.cpu", 1)] :=
  ⟨by decide,
   (run_ignores_filter sampleRunEnv sampleRunEnv sampleCheck sampleCheckFiltered { handle := 1 }
      { handle := 1 } { handle := 7 } { handle := 7 } sampleUnits sampleUnits
      rfl rfl rfl rfl rfl rfl rfl).1,
   by decide⟩

/-- C8: on a successful run the calls on the sender are exactly: Gauge
"systemd.unit.active.count" with the converted active count, Gauge
"systemd.unit.cpu" with the value 1, Commit; both gauges with an empty
hostname and no tags, the second with the same value whatever the units.
The converted count is the count itself for every list shorter than 2 ^ 53. -/
theorem run_sender_calls (env : RunEnv Base) (c : SystemdCheck Base) (sender : Sender)
    (conn : Conn) (units : List UnitStatus)
    (hs : env.GetSender (env.ID c.CheckBase) = Except.ok sender)
    (hc : env.dbusNew = Except.ok conn)
    (hl : env.connListUnits conn = Except.ok units) :
    senderCalls (SystemdCheck.Run env c).trace =
      [Event.Gauge sender "systemd.unit.active.count" (float64 (activeCount units)) "" [],
       Event.Gauge sender "systemd.unit.cpu" 1 "" [],
       Event.Commit sender] ∧
    (units.length < 2 ^ 53 → float64 (activeCount units) = activeCount units) := by
  refine ⟨?_, fun hlen =>
    float64_exact _ (lt_of_le_of_lt (activeCount_le_length units) hlen)⟩
  rw [run_of_success env c sender conn units hs hc hl]
  simp [senderCalls_append, senderCalls_debug, senderCalls]

/-- Witness for C8: no unit is listed; the sender sees the count 0, the
constant 1 and one Commit. -/
theorem run_sender_calls_witness :
    sampleRunEnvNoUnits.connListUnits { handle := 7 } = Except.ok [] ∧
    senderCalls (SystemdCheck.Run sampleRunEnvNoUnits sampleCheck).trace =
      [Event.Gauge { handle := 1 } "systemd.unit.active.count" 0 "" [],
       Event.Gauge { handle := 1 } "systemd.unit.cpu" 1 "" [],
       Event.Commit { handle := 1 }] :=
  ⟨rfl, (run_sender_calls sampleRunEnvNoUnits sampleCheck { handle := 1 } { handle := 7 } []
    rfl rfl rfl).1⟩

/-- C10: Run emits metrics only on success. If Run returns a non-nil error, no
Gauge and no Commit call was made on the sender; and Run returns nil exactly
when sender acquisition, dbusNew and connListUnits all succeeded. -/
theorem run_emits_only_on_success (env : RunEnv Base) (c : SystemdCheck Base) :
    ((SystemdCheck.Run env c).err ≠ none → senderCalls (SystemdCheck.Run env c).trace = []) ∧
    ((SystemdCheck.Run env c).err = none ↔
      ∃ sender conn units, env.GetSender (env.ID c.CheckBase) = Except.ok sender ∧
        env.dbusNew = Except.ok conn ∧ env.connListUnits conn = Except.ok units) := by
  cases hs : env.GetSender (env.ID c.CheckBase) with
  | error err =>
    rw [run_of_sender_failure env c err hs]
    simp [senderCalls]
  | ok sender =>
    cases hc : env.dbusNew with
    | error err =>
      rw [run_of_open_failure env c sender err hs hc]
      simp [senderCalls]
    | ok conn =>
      cases hl : env.connListUnits conn with
      | error err =>
        rw [run_of_list_failure env c sender conn err hs hc hl]
        simp [senderCalls, hl]
      | ok units =>
        rw [run_of_success env c sender conn units hs hc hl]
        simp [hl]

/-- Witness for C10: a run whose listing fails returns an error and leaves the
sender untouched. -/
theorem run_emits_only_on_success_witness :
    (SystemdCheck.Run sampleRunEnvListFails sampleCheck).err ≠ none ∧
    senderCalls (SystemdCheck.Run sampleRunEnvListFails sampleCheck).trace = [] :=
  ⟨by decide, (run_emits_only_on_success sampleRunEnvListFails sampleCheck).1 (by decide)⟩

end Systemd

namespace Systemd

/-! ## Configure -/

theorem compilePatterns_patterns (regexpCompile : String → Except Error Regexp)
    (strs : List String) : ∀ (ps : List Regexp) (t : List Event),
    (compilePatterns regexpCompile strs ps t).1 = ps ++ compiledOf regexpCompile strs := by
  induction strs with
  | nil => intro ps t; simp [compilePatterns, compiledOf]
  | cons s rest ih =>
    intro ps t
    unfold compilePatterns
    cases h : regexpCompile s with
    | error err => simp [ih, compiledOf, List.filterMap_cons, h]
    | ok pattern => simp [ih, compiledOf, List.filterMap_cons, h]

theorem compiledOf_length_le (regexpCompile : String → Except Error Regexp)
    (strs : List String) : (compiledOf regexpCompile strs).length ≤ strs.length :=
  List.length_filterMap_le _ _

theorem mem_compiledOf (regexpCompile : String → Except Error Regexp) (strs : List String)
    (p : Regexp) :
    p ∈ compiledOf regexpCompile strs ↔ ∃ s ∈ strs, regexpCompile s = Except.ok p := by
  unfold compiledOf
  rw [List.mem_filterMap]
  constructor
  · rintro ⟨s, hs, h⟩
    refine ⟨s, hs, ?_⟩
    cases hc : regexpCompile s with
    | error err => simp [hc] at h
    | ok q => simp [hc] at h; rw [h]
  · rintro ⟨s, hs, h⟩
    exact ⟨s, hs, by simp [h]⟩

/-- The state Configure leaves when its three fallible steps succeed. -/
theorem configure_of_success (env : ConfigureEnv Base) (c : SystemdCheck Base)
    (rawInstance rawInitConfig : Data)
    (hcommon : (env.CommonConfigure c.CheckBase rawInstance).2 = none)
    (hinit : (env.yamlUnmarshalInit rawInitConfig c.config.initConf).2 = none)
    (hinst : (env.yamlUnmarshalInstance rawInstance c.config.«instance»).2 = none) :
    (SystemdCheck.Configure env c rawInstance rawInitConfig).err = none ∧
    (SystemdCheck.Configure env c rawInstance rawInitConfig).check.config.«instance» =
      { UnitNames := (env.yamlUnmarshalInstance rawInstance c.config.«instance»).1.UnitNames,
        UnitRegexStrings :=
          (env.yamlUnmarshalInstance rawInstance c.config.«instance»).1.UnitRegexStrings,
        UnitRegexPatterns :=
          (env.yamlUnmarshalInstance rawInstance c.config.«instance»).1.UnitRegexPatterns ++
            compiledOf env.regexpCompile
              (env.yamlUnmarshalInstance rawInstance c.config.«instance»).1.UnitRegexStrings } := by
  simp [SystemdCheck.Configure, hcommon, hinit, hinst, compilePatterns_patterns]

/-- Configure returns nil only if its three fallible steps succeeded. -/
theorem configure_success_steps (env : ConfigureEnv Base) (c : SystemdCheck Base)
    (rawInstance rawInitConfig : Data)
    (hok : (SystemdCheck.Configure env c rawInstance rawInitConfig).err = none) :
    (env.CommonConfigure c.CheckBase rawInstance).2 = none ∧
    (env.yamlUnmarshalInit rawInitConfig c.config.initConf).2 = none ∧
    (env.yamlUnmarshalInstance rawInstance c.config.«instance»).2 = none := by
  cases h0 : (env.CommonConfigure c.CheckBase rawInstance).2 with
  | some e => simp [SystemdCheck.Configure, h0] at hok
  | none =>
    cases h1 : (env.yamlUnmarshalInit rawInitConfig c.config.initConf).2 with
    | some e => simp [SystemdCheck.Configure, h0, h1] at hok
    | none =>
      cases h2 : (env.yamlUnmarshalInstance rawInstance c.config.«instance»).2 with
      | some e => simp [SystemdCheck.Configure, h0, h1, h2] at hok
      | none => exact ⟨rfl, rfl, rfl⟩

end Systemd

namespace Systemd

/-- C5, as stated, fails: on a freshly created check, whose pattern list is
empty, with CommonConfigure and both YAML decodes succeeding, the document
unit_regex: ["ok.*"], unitregexpatterns: [{}] makes the instance decode
itself put a zero Regexp into UnitRegexPatterns. Configure returns nil, the
decoded unit_regex strings are ["ok.*"], and UnitRegexPatterns ends with two
patterns, the zero Regexp and the one for "ok.*", which is not the list of
the compiled patterns of the strings. -/
theorem configure_untagged_key_counterexample :
    (systemdFactory sampleNewCheckBase).config.«instance».UnitRegexPatterns = [] ∧
    (sampleConfigureEnv.CommonConfigure (systemdFactory sampleNewCheckBase).CheckBase
      sampleDocUntaggedKey).2 = none ∧
    (sampleConfigureEnv.yamlUnmarshalInit []
      (systemdFactory sampleNewCheckBase).config.initConf).2 = none ∧
    (sampleConfigureEnv.yamlUnmarshalInstance sampleDocUntaggedKey
      (systemdFactory sampleNewCheckBase).config.«instance»).2 = none ∧
    (SystemdCheck.Configure sampleConfigureEnv (systemdFactory sampleNewCheckBase)
      sampleDocUntaggedKey []).err = none ∧
    (SystemdCheck.Configure sampleConfigureEnv (systemdFactory sampleNewCheckBase)
      sampleDocUntaggedKey []).check.config.«instance».UnitRegexStrings = ["ok.*"] ∧
    (SystemdCheck.Configure sampleConfigureEnv (systemdFactory sampleNewCheckBase)
      sampleDocUntaggedKey []).check.config.«instance».UnitRegexPatterns =
      [{ expr := "" }, { expr := "ok.*" }] ∧
    compiledOf sampleConfigureEnv.regexpCompile ["ok.*"] = [{ expr := "ok.*" }] ∧
    (SystemdCheck.Configure sampleConfigureEnv (systemdFactory sampleNewCheckBase)
      sampleDocUntaggedKey []).check.config.«instance».UnitRegexPatterns ≠
      compiledOf sampleConfigureEnv.regexpCompile ["ok.*"] := by
  refine ⟨by decide, by decide, by decide, by decide, by decide, by decide, by decide,
    by decide, by decide⟩

/-- C5, amended: on a freshly created check, when CommonConfigure and both
YAML decodes succeed and the instance decode leaves the unit names names, the
unit_regex strings strs and the pattern list empty, Configure returns nil,
whether or not every string compiles, and UnitRegexPatterns is exactly the
list of the compiled patterns of the strings that compile, in the order of
the strings, failures dropped. -/
theorem configure_keeps_compiled_subset (env : ConfigureEnv Base)
    (NewCheckBase : String → Base) (rawInstance rawInitConfig : Data)
    (names strs : List String)
    (hcommon : (env.CommonConfigure (NewCheckBase systemdCheckName) rawInstance).2 = none)
    (hinit : (env.yamlUnmarshalInit rawInitConfig {}).2 = none)
    (hinst : env.yamlUnmarshalInstance rawInstance
        { UnitNames := [], UnitRegexStrings := [], UnitRegexPatterns := [] } =
      ({ UnitNames := names, UnitRegexStrings := strs, UnitRegexPatterns := [] }, none)) :
    (SystemdCheck.Configure env (systemdFactory NewCheckBase) rawInstance rawInitConfig).err =
      none ∧
    (SystemdCheck.Configure env (systemdFactory NewCheckBase) rawInstance
      rawInitConfig).check.config.«instance».UnitRegexStrings = strs ∧
    (SystemdCheck.Configure env (systemdFactory NewCheckBase) rawInstance
      rawInitConfig).check.config.«instance».UnitRegexPatterns =
      compiledOf env.regexpCompile strs := by
  have h := configure_of_success env (systemdFactory NewCheckBase) rawInstance rawInitConfig
    hcommon hinit (by simp [systemdFactory, hinst])
  refine ⟨h.1, ?_, ?_⟩
  · rw [h.2]; simp [systemdFactory, hinst]
  · rw [h.2]; simp [systemdFactory, hinst]

/-- Witness for C5, amended: unit_regex ["[", "ok.*"] yields exactly one pattern, the
one for "ok.*", and Configure returns nil. -/
theorem configure_keeps_compiled_subset_witness :
    sampleRegexpCompile "[" =
      Except.error { msg := "error parsing regexp: missing closing ]" } ∧
    sampleRegexpCompile "ok.*" = Except.ok { expr := "ok.*" } ∧
    (SystemdCheck.Configure sampleConfigureEnv (systemdFactory sampleNewCheckBase)
      sampleDocBadAndGood []).err = none ∧
    (SystemdCheck.Configure sampleConfigureEnv (systemdFactory sampleNewCheckBase)
      sampleDocBadAndGood []).check.config.«instance».UnitRegexStrings = ["[", "ok.*"] ∧
    (SystemdCheck.Configure sampleConfigureEnv (systemdFactory sampleNewCheckBase)
      sampleDocBadAndGood []).check.config.«instance».UnitRegexPatterns =
      [{ expr := "ok.*" }] :=
  ⟨by rfl, by rfl,
   configure_keeps_compiled_subset sampleConfigureEnv sampleNewCheckBase sampleDocBadAndGood []
     [] ["[", "ok.*"] rfl rfl (by decide)⟩

/-- C6, as stated, fails: a check configured once with unit_regex ["a.*"] and
configured again with unit_regex ["b.*"] ends with UnitRegexStrings ["b.*"]
and UnitRegexPatterns [a.*, b.*]. The pattern a.* is carried over, the
pattern list is longer than the string list, and the result differs from
the one the same documents give on a fresh check. -/
theorem configure_replaces_counterexample :
    (SystemdCheck.Configure sampleConfigureEnv sampleCheckConfigured sampleDocB []).err = none ∧
    (SystemdCheck.Configure sampleConfigureEnv sampleCheck sampleDocB []).err = none ∧
    (SystemdCheck.Configure sampleConfigureEnv sampleCheckConfigured sampleDocB
      []).check.config.«instance» =
      { UnitNames := [], UnitRegexStrings := ["b.*"],
        UnitRegexPatterns := [{ expr := "a.*" }, { expr := "b.*" }] } ∧
    (SystemdCheck.Configure sampleConfigureEnv sampleCheck sampleDocB
      []).check.config.«instance» =
      { UnitNames := [], UnitRegexStrings := ["b.*"],
        UnitRegexPatterns := [{ expr := "b.*" }] } ∧
    ({ expr := "a.*" } : Regexp) ∉ compiledOf sampleRegexpCompile ["b.*"] ∧
    ¬ ((SystemdCheck.Configure sampleConfigureEnv sampleCheckConfigured sampleDocB
        []).check.config.«instance».UnitRegexPatterns.length ≤
      (SystemdCheck.Configure sampleConfigureEnv sampleCheckConfigured sampleDocB
        []).check.config.«instance».UnitRegexStrings.length) := by
  refine ⟨by decide, by decide, by decide, by decide, by decide, by decide⟩

/-- C6, amended: Configure does not replace the previous configuration. It
hands the previous InstanceConfig to the instance decode and appends to the
pattern list that decode leaves. Whenever Configure returns nil:
(1) UnitNames and UnitRegexStrings after the call are the ones the instance
decode left, given the previous InstanceConfig;
(2) UnitRegexPatterns after the call is the pattern list the instance decode
left, followed by the compiled patterns of those strings of UnitRegexStrings,
as it stands after the call, that compile, in order;
(3) so its length is at most the length of the pattern list the decode left
plus the length of UnitRegexStrings;
(4) if the decode left the pattern list as it found it, every pattern of the
previous state is carried over, in front of the newly compiled ones;
(5) if the decode left the pattern list empty, every pattern is the
compilation of some string of UnitRegexStrings after the call, and there are
at most as many patterns as strings. -/
theorem configure_appends_patterns (env : ConfigureEnv Base) (c : SystemdCheck Base)
    (rawInstance rawInitConfig : Data)
    (hok : (SystemdCheck.Configure env c rawInstance rawInitConfig).err = none) :
    (SystemdCheck.Configure env c rawInstance rawInitConfig).check.config.«instance».UnitNames =
      (env.yamlUnmarshalInstance rawInstance c.config.«instance»).1.UnitNames ∧
    (SystemdCheck.Configure env c rawInstance
        rawInitConfig).check.config.«instance».UnitRegexStrings =
      (env.yamlUnmarshalInstance rawInstance c.config.«instance»).1.UnitRegexStrings ∧
    (SystemdCheck.Configure env c rawInstance
        rawInitConfig).check.config.«instance».UnitRegexPatterns =
      (env.yamlUnmarshalInstance rawInstance c.config.«instance»).1.UnitRegexPatterns ++
        compiledOf env.regexpCompile
          (SystemdCheck.Configure env c rawInstance
            rawInitConfig).check.config.«instance».UnitRegexStrings ∧
    (SystemdCheck.Configure env c rawInstance
        rawInitConfig).check.config.«instance».UnitRegexPatterns.length ≤
      (env.yamlUnmarshalInstance rawInstance c.config.«instance»).1.UnitRegexPatterns.length +
        (SystemdCheck.Configure env c rawInstance
          rawInitConfig).check.config.«instance».UnitRegexStrings.length ∧
    ((env.yamlUnmarshalInstance rawInstance c.config.«instance»).1.UnitRegexPatterns =
        c.config.«instance».UnitRegexPatterns →
      (SystemdCheck.Configure env c rawInstance
          rawInitConfig).check.config.«instance».UnitRegexPatterns =
        c.config.«instance».UnitRegexPatterns ++
          compiledOf env.regexpCompile
            (SystemdCheck.Configure env c rawInstance
              rawInitConfig).check.config.«instance».UnitRegexStrings) ∧
    ((env.yamlUnmarshalInstance rawInstance c.config.«instance»).1.UnitRegexPatterns = [] →
      (∀ p ∈ (SystemdCheck.Configure env c rawInstance
          rawInitConfig).check.config.«instance».UnitRegexPatterns,
        ∃ s ∈ (SystemdCheck.Configure env c rawInstance
          rawInitConfig).check.config.«instance».UnitRegexStrings,
          env.regexpCompile s = Except.ok p) ∧
      (SystemdCheck.Configure env c rawInstance
          rawInitConfig).check.config.«instance».UnitRegexPatterns.length ≤
        (SystemdCheck.Configure env c rawInstance
          rawInitConfig).check.config.«instance».UnitRegexStrings.length) := by
  obtain ⟨h0, h1, h2⟩ := configure_success_steps env c rawInstance rawInitConfig hok
  have h := (configure_of_success env c rawInstance rawInitConfig h0 h1 h2).2
  rw [h]
  refine ⟨rfl, rfl, rfl, ?_, ?_, ?_⟩
  · simp only [List.length_append]
    exact Nat.add_le_add_left (compiledOf_length_le _ _) _
  · intro hkept
    simp only [hkept]
  · intro hempty
    simp only [hempty, List.nil_append]
    exact ⟨fun p hp => (mem_compiledOf _ _ p).1 hp, compiledOf_length_le _ _⟩

/-- Witness for C6, amended: in the second Configure of the counterexample
the decode leaves the pattern list as it found it, [a.*], and the pattern for
"b.*" is appended to it. -/
theorem configure_appends_patterns_witness :
    (SystemdCheck.Configure sampleConfigureEnv sampleCheckConfigured sampleDocB []).err = none ∧
    (sampleConfigureEnv.yamlUnmarshalInstance sampleDocB
      sampleCheckConfigured.config.«instance»).1.UnitRegexPatterns =
      sampleCheckConfigured.config.«instance».UnitRegexPatterns ∧
    sampleCheckConfigured.config.«instance».UnitRegexPatterns = [{ expr := "a.*" }] ∧
    (SystemdCheck.Configure sampleConfigureEnv sampleCheckConfigured sampleDocB
        []).check.config.«instance».UnitRegexPatterns =
      sampleCheckConfigured.config.«instance».UnitRegexPatterns ++
        compiledOf sampleConfigureEnv.regexpCompile
          (SystemdCheck.Configure sampleConfigureEnv sampleCheckConfigured sampleDocB
            []).check.config.«instance».UnitRegexStrings :=
  ⟨by decide, by decide, by decide,
   (configure_appends_patterns sampleConfigureEnv sampleCheckConfigured sampleDocB []
     (by decide)).2.2.2.2.1 (by decide)⟩

end Systemd

namespace Clusterchecks

/-- C9: at the entity "kube_service://" followed by the UID
e4b7c1d2-0a3f-4c55-9d1e-5f2a7b8c9d10, isServiceCheck holds, and
getServiceUID returns 4b7c1d2-0a3f-4c55-9d1e-5f2a7b8c9d10, not the UID: the
leading e of the UID is one of the characters of the cutset and is trimmed
with the marker. -/
theorem getServiceUID_trims_into_uid :
    isServiceCheck { Entity := kubeServiceIDPrefix ++ sampleServiceUID } = true ∧
    getServiceUID { Entity := kubeServiceIDPrefix ++ sampleServiceUID } =
      "4b7c1d2-0a3f-4c55-9d1e-5f2a7b8c9d10" ∧
    getServiceUID { Entity := kubeServiceIDPrefix ++ sampleServiceUID } ≠
      sampleServiceUID := by
  refine ⟨by decide, by decide, by decide⟩

end Clusterchecks
